import Mathlib

/-!
Verification development for the `ran.routing.pyclient` streaming-connection
core.  The definitions below are a shallow embedding of the Python sources:

* `ConnState` embeds the mutable fields of `UpstreamConnection` /
  `DownstreamConnection` (`src/ran/routing/core/upstream/connection.py` and
  `src/ran/routing/core/downstream/connection.py`; the two classes are
  line-for-line duplicates in everything modelled here).
* The serializer model embeds `cast_keys_to_snake_case` and
  `DownstreamAckOrResultSerializer.parse`
  (`src/ran/routing/core/serializers/json.py`).
* `DownstreamSync` embeds the correlation tracker of
  `src/examples/routing_core.py`.
* `ConnectionManager` embeds `UpstreamConnectionManager` /
  `DownstreamConnectionManager`.

Messages held in the inbound buffer are kept abstract (a type parameter `α`):
none of the verified properties depend on the payload of a decoded message.
-/

namespace RanRouting

/-- Exceptions raised by the connection classes
(`src/ran/routing/core/upstream/exceptions.py`): `UpstreamError`,
`UpstreamConnectionClosedOk`, `UpstreamConnectionClosedAbnormally`, plus the
bare `Exception` raised by `wait_closed` on a never-established connection.
The downstream hierarchy is identical up to renaming. -/
inductive ConnError
  | alreadyEstablishedOrClosed
  | closedOk
  | closedAbnormally (reason : String)
  | notYetEstablished
deriving Repr, DecidableEq

/-- Mutable state of one `UpstreamConnection` / `DownstreamConnection`
instance.

* `opened` — the `_opened` `asyncio.Event`.
* `stopEvent` — the `_stop_event` `asyncio.Event`.
* `closed` — the `_closed` future: `none` while unresolved, `some r` once
  `set_result r` ran (`r = none` graceful close, `r = some reason` abnormal).
* `ws` — whether `_ws` currently holds a websocket handle.
* `buffer` — contents of the `asyncio.Queue` inbound buffer, FIFO, head first.
* `cap` — the queue `maxsize` (`0` means unbounded, as in asyncio).
* `listeners` — bookkeeping: how many `_listener` tasks have been spawned on
  this instance (observable through `asyncio.create_task` in `connect`). -/
structure ConnState (α : Type) where
  opened : Bool
  stopEvent : Bool
  closed : Option (Option String)
  ws : Bool
  buffer : List α
  cap : Nat
  listeners : Nat
deriving Repr, DecidableEq

/-- State produced by `__init__`: events unset, future unresolved, no
websocket, empty buffer of the requested capacity, no listener spawned. -/
def initConnState (α : Type) (bufferSize : Nat) : ConnState α :=
  ⟨false, false, none, false, [], bufferSize, 0⟩

/-- Embeds `is_opened`: `self._opened.is_set()`. -/
def ConnState.is_opened (s : ConnState α) : Bool := s.opened

/-- Embeds `is_closed`: `self._closed.done()`. -/
def ConnState.is_closed (s : ConnState α) : Bool := s.closed.isSome

/-- Embeds `close()`: sets `_stop_event`; non-blocking, touches nothing else. -/
def ConnState.stop (s : ConnState α) : ConnState α := { s with stopEvent := true }

/-- Embeds `_raise_on_closed(force_raise_if_closed)`: reads `self._closed.result()`
when the future is done; `none` (graceful) raises `ClosedOk` only when
forced, otherwise returns `None`; `some reason` always raises
`ClosedAbnormally(reason)`.  Not closed returns `None`. -/
def raiseOnClosed (s : ConnState α) (forceRaiseIfClosed : Bool) :
    Except ConnError (Option α) :=
  match s.closed with
  | some none =>
      if forceRaiseIfClosed then .error .closedOk else .ok none
  | some (some reason) => .error (.closedAbnormally reason)
  | none => .ok none

/-- Embeds `asyncio.Queue.put` on the inbound buffer: blocks (no result in this
sequential model) when a positive `maxsize` is reached, otherwise appends. -/
def queuePut (s : ConnState α) (m : α) : Option (ConnState α) :=
  if s.cap ≠ 0 ∧ s.cap ≤ s.buffer.length then none
  else some { s with buffer := s.buffer ++ [m] }

/-- Embeds `asyncio.Queue.get` on the inbound buffer: blocks on an empty queue,
otherwise pops the front. -/
def queueGet (s : ConnState α) : Option (α × ConnState α) :=
  match s.buffer with
  | [] => none
  | m :: rest => some (m, { s with buffer := rest })

/-- Sequence of successful listener enqueues: the listener decodes each frame
and awaits `self._upstream_buffer.put(...)`; `none` if any put blocks. -/
def putAll (s : ConnState α) : List α → Option (ConnState α)
  | [] => some s
  | m :: ms => (queuePut s m).bind fun s₁ => putAll s₁ ms

/-- Embeds `asyncio.Future.set_result`: resolves an unresolved future; on an already
resolved future it raises `InvalidStateError` and the stored value is
untouched.  Returns the future state and whether the write happened. -/
def futureSetResult (f : Option (Option String)) (v : Option String) :
    Option (Option String) × Bool :=
  match f with
  | some r => (some r, false)
  | none => (some v, true)

/-- The `finally:` block of `_listener`: clears `_opened`, clears `_ws` and
calls `self._closed.set_result(close_result)`. -/
def listenerFinalize (s : ConnState α) (closeResult : Option String) :
    ConnState α :=
  { s with
      opened := false
      ws := false
      closed := (futureSetResult s.closed closeResult).1 }

/-- The drain loop at the end of `stream()`:
`for _ in range(qsize()): yield await get()`, unrolled `n` times. -/
def drainLoop : Nat → ConnState α → List α × ConnState α
  | 0, s => ([], s)
  | n + 1, s =>
      match queueGet s with
      | none => ([], s)
      | some (m, s₁) =>
          let r := drainLoop n s₁
          (m :: r.1, r.2)

/-- Embeds `stream()` entered when the connection is already closed: the
`while not self.is_closed()` loop body never runs, and the generator falls
through to the drain loop bounded by `qsize()`. -/
def streamAfterClosed (s : ConnState α) : List α × ConnState α :=
  drainLoop s.buffer.length s

/-- Embeds `recv(timeout)` in a quiescent run: no message is enqueued and the
`_closed` future does not change between the call and the end of any wait, so
every check observes the same state `s`.  Result `none` means the call
suspends forever in such a run.  Mirrors the source line by line:
a non-empty buffer returns `await get()` at once; with `timeout=None` the
call races `wait_closed()` against `get()` (with no message, it proceeds only
once closed) and falls through to
`self._raise_on_closed(force_raise_if_closed=True)`; with a timeout the
`asyncio.wait_for` expiry is suppressed and the call falls through to the
same `_raise_on_closed` line. -/
def recvQuiescent (s : ConnState α) (timeout : Option Nat) :
    Option (Except ConnError (Option α) × ConnState α) :=
  match s.buffer with
  | m :: rest => some (.ok (some m), { s with buffer := rest })
  | [] =>
      match timeout with
      | none =>
          if s.is_closed then some (raiseOnClosed s true, s) else none
      | some _ => some (raiseOnClosed s true, s)

/-- Embeds `wait_closed()`: returns at once when `_closed` is done; raises the bare
"not yet been established" `Exception` when `_ws` is absent; otherwise
suspends awaiting `_closed` (modelled as `none`). -/
def waitClosed (s : ConnState α) : Option (Except ConnError Unit) :=
  if s.is_closed then some (.ok ())
  else if !s.ws then some (.error .notYetEstablished)
  else none

/-- Synchronous beginning of `connect()`: the guard
`if self.is_opened() or self.is_closed(): raise ...` runs before anything
else; past it, `asyncio.create_task(self._listener())` spawns a listener.
The error case returns the state unchanged (the guard raises before any
mutation). -/
def connectStart (s : ConnState α) : Except ConnError Unit × ConnState α :=
  if s.is_opened || s.is_closed then
    (.error .alreadyEstablishedOrClosed, s)
  else
    (.ok (), { s with listeners := s.listeners + 1 })

/-- Outcome of the listener's `ws_connect` handshake attempt. -/
inductive HandshakeOutcome
  | success
  | handshakeError (status : Nat) (message : String)
  | clientConnectionError (message : String)
deriving Repr, DecidableEq

/-- Close reason recorded by `_listener` for a 401 handshake failure. -/
def unauthorizedReason : String := "Unauthorized. Incorrect access_token sent."

/-- Close reason recorded by the `WSServerHandshakeError` handler of
`_listener`: a 401 status yields the fixed unauthorized text, anything else
the generic handshake-error text. -/
def handshakeCloseReason (status : Nat) (message : String) : String :=
  if status = 401 then unauthorizedReason
  else "Connection closed due to unhandled handshake error: " ++ message

/-- Successful `ws_connect`: the listener stores the handle in `_ws` and sets
`_opened`. -/
def listenerOpen (s : ConnState α) : ConnState α :=
  { s with ws := true, opened := true }

/-- Embeds `connect()` driven to completion against a handshake outcome.  On
success, `connect` returns once `_opened` is observed.  On a handshake
failure the listener swallows the exception, records the close reason and
finishes its `finally:` block; `connect` then sees the listener task done
with `listener_task.exception() = None` and ends with
`return self._raise_on_closed()` (no forcing), which re-raises the recorded
abnormal reason. -/
def connect (s : ConnState α) (hs : HandshakeOutcome) :
    Except ConnError Unit × ConnState α :=
  match connectStart s with
  | (.error e, s₀) => (.error e, s₀)
  | (.ok _, s₁) =>
      match hs with
      | .success => (.ok (), listenerOpen s₁)
      | .handshakeError status message =>
          let s₂ := listenerFinalize s₁ (some (handshakeCloseReason status message))
          ((raiseOnClosed s₂ false).map fun _ => (), s₂)
      | .clientConnectionError message =>
          let s₂ := listenerFinalize s₁ (some ("Connection closed due to " ++ message))
          ((raiseOnClosed s₂ false).map fun _ => (), s₂)

/-- Atomic transitions any task can apply to a connection instance, used to
state preservation of the close reason.  A `putMessage` on a full buffer and
a `getMessage` on an empty one block, i.e. leave the state unchanged. -/
inductive Event (α : Type)
  | stop
  | connectBegin
  | open0
  | putMessage (m : α)
  | getMessage
  | finalize (reason : Option String)

/-- Effect of one `Event` on the connection state. -/
def stepEvent (s : ConnState α) : Event α → ConnState α
  | .stop => s.stop
  | .connectBegin => (connectStart s).2
  | .open0 => listenerOpen s
  | .putMessage m => (queuePut s m).getD s
  | .getMessage => ((queueGet s).map Prod.snd).getD s
  | .finalize r => listenerFinalize s r

/-! ### Serializer (`src/ran/routing/core/serializers/json.py`) -/

/-- The explicit `rules` table of `cast_keys_to_snake_case`. -/
def snakeCaseRules : List (String × String) :=
  [("DevEUI", "dev_eui"), ("DevEUIs", "dev_euis"), ("JoinEUI", "join_eui"),
   ("TransactionID", "transaction_id"), ("MailboxID", "mailbox_id"),
   ("PHYPayload", "phy_payload"), ("PHYPayloadNoMIC", "phy_payload_no_mic"),
   ("MIC", "mic"), ("MICChallenge", "mic_challenge"), ("LoRa", "lora"),
   ("FSK", "fsk"), ("FHSS", "fhss"), ("RSSI", "rssi"), ("SNR", "snr")]

/-- Fallback branch of `cast_keys_to_snake_case`:
`re.sub("(?!^)([A-Z]+)", r"_\x5c1", key).lower()` — an underscore is written
before every maximal run of ASCII uppercase letters that does not start at
position 0, then everything is lowercased.  The two boolean arguments track
"at position 0" and "previous character was part of an uppercase run". -/
def camelToSnakeAux : Bool → Bool → List Char → List Char
  | _, _, [] => []
  | atStart, prevUpper, c :: rest =>
      if c.isUpper then
        (if atStart || prevUpper then [c.toLower] else ['_', c.toLower])
          ++ camelToSnakeAux false true rest
      else
        c.toLower :: camelToSnakeAux false false rest

/-- String wrapper for `camelToSnakeAux`. -/
def camelToSnake (s : String) : String := ⟨camelToSnakeAux true false s.data⟩

/-- Translation of one wire key by `cast_keys_to_snake_case`: the `rules`
table when it applies, the regex fallback otherwise. -/
def snakeKey (k : String) : String :=
  match snakeCaseRules.lookup k with
  | some v => v
  | none => camelToSnake k

/-- Embeds `cast_keys_to_snake_case` on the top level of a decoded wire object,
modelled as a key-value list; values are kept abstract (the recursion of the
Python function into nested dict values never changes the top-level key set
that the classification below inspects). -/
def castKeysToSnakeCase (d : List (String × V)) : List (String × V) :=
  d.map fun kv => (snakeKey kv.1, kv.2)

/-- Result of `DownstreamAckOrResultSerializer.parse`: one of the two typed
reply variants, `DownstreamResultMessage` or `DownstreamAckMessage`, carrying
the snake-cased field dictionary passed to the pydantic model. -/
inductive DownstreamAckOrResult (V : Type)
  | ackMessage (fields : List (String × V))
  | resultMessage (fields : List (String × V))
deriving Repr, DecidableEq

/-- Embeds `DownstreamAckOrResultSerializer.parse` after `json.loads`: snake-cases
the keys, then `if "result_code" in domain_dict` selects
`DownstreamResultMessage`, `else` `DownstreamAckMessage`. -/
def downstreamAckOrResultParse (d : List (String × V)) :
    DownstreamAckOrResult V :=
  let domainDict := castKeysToSnakeCase d
  if (domainDict.map Prod.fst).contains "result_code" then
    .resultMessage domainDict
  else
    .ackMessage domainDict

/-! ### Correlation tracker (`src/examples/routing_core.py`) -/

/-- Inbound reply messages dispatched by `ack_result_listener`, keyed by
their `transaction_id`. -/
inductive DownMsg
  | ackMessage (transactionId : Nat)
  | resultMessage (transactionId : Nat)
deriving Repr, DecidableEq

/-- Transaction id carried by a reply message. -/
def DownMsg.transactionId : DownMsg → Nat
  | .ackMessage tid => tid
  | .resultMessage tid => tid

/-- State of a `DownstreamSync` instance.  `asyncio.Future` objects live in
the `futures` arena (index = identity of the future object, `none` =
pending, `some m` = resolved with `m`); `acks` and `results` are the two
`transaction_id -> future` dictionaries, as association lists whose first
match wins. -/
structure DownstreamSync where
  futures : List (Option DownMsg)
  acks : List (Nat × Nat)
  results : List (Nat × Nat)
deriving Repr, DecidableEq

/-- Embeds `create_downstream_ack_future`: allocates a fresh pending future and
stores it under `transaction_id` in `self.acks` (dict assignment replaces
any previous entry for the same key); returns the future. -/
def createDownstreamAckFuture (s : DownstreamSync) (transactionId : Nat) :
    Nat × DownstreamSync :=
  let idx := s.futures.length
  (idx,
   { s with
       futures := s.futures ++ [none]
       acks := (transactionId, idx) ::
         s.acks.filter fun kv => kv.1 ≠ transactionId })

/-- Embeds `create_downstream_result_future`: same, on `self.results`. -/
def createDownstreamResultFuture (s : DownstreamSync) (transactionId : Nat) :
    Nat × DownstreamSync :=
  let idx := s.futures.length
  (idx,
   { s with
       futures := s.futures ++ [none]
       results := (transactionId, idx) ::
         s.results.filter fun kv => kv.1 ≠ transactionId })

/-- One iteration of `ack_result_listener` on a received message: an ack with
a registered transaction id pops that entry and resolves its future with the
message; a result does the same on `self.results`; an unregistered id leaves
everything untouched. -/
def ackResultDispatch (s : DownstreamSync) (m : DownMsg) : DownstreamSync :=
  match m with
  | .ackMessage tid =>
      match s.acks.lookup tid with
      | some idx =>
          { s with
              acks := s.acks.filter fun kv => kv.1 ≠ tid
              futures := s.futures.set idx (some m) }
      | none => s
  | .resultMessage tid =>
      match s.results.lookup tid with
      | some idx =>
          { s with
              results := s.results.filter fun kv => kv.1 ≠ tid
              futures := s.futures.set idx (some m) }
      | none => s

/-! ### Connection managers
(`src/ran/routing/core/upstream/connection_manager.py` and
`src/ran/routing/core/downstream/connection_manager.py`) -/

/-- Shared fields of `UpstreamConnectionManager` / `DownstreamConnectionManager`:
the access token, the `aiohttp.ClientSession` (an opaque handle here) and the
API path. -/
structure ConnectionManager where
  accessToken : String
  session : Nat
  apiPath : String
deriving Repr, DecidableEq

/-- A connection object: the constructor arguments it was bound to plus its
mutable state. -/
structure Connection (α : Type) where
  accessToken : String
  session : Nat
  apiPath : String
  conn : ConnState α
deriving Repr, DecidableEq

/-- Embeds `UpstreamConnection.__init__` / `DownstreamConnection.__init__`. -/
def Connection.mkNew (α : Type) (accessToken : String) (session : Nat)
    (apiPath : String) (bufferSize : Nat) : Connection α :=
  ⟨accessToken, session, apiPath, initConnState α bufferSize⟩

/-- Embeds `create_connection(buffer_size)`: builds a connection from the manager's
stored token, session and path, then `await`s `connect()` on it; an
exception from `connect` propagates to the caller. -/
def createConnection (α : Type) (m : ConnectionManager) (bufferSize : Nat)
    (hs : HandshakeOutcome) : Except ConnError (Connection α) :=
  let c := Connection.mkNew α m.accessToken m.session m.apiPath bufferSize
  match connect c.conn hs with
  | (.ok _, s₁) => .ok { c with conn := s₁ }
  | (.error e, _) => .error e

/-- Embeds `__call__(buffer_size)`: builds the same connection object and returns it
without calling `connect`. -/
def managerCall (α : Type) (m : ConnectionManager) (bufferSize : Nat) :
    Connection α :=
  Connection.mkNew α m.accessToken m.session m.apiPath bufferSize

/-- Connection state after `connect()` was started on a fresh instance but
before the handshake resolved (the "Connecting" phase): one listener task is
already spawned while `_opened` and `_closed` are still unset. -/
def connectingState : ConnState Nat :=
  (connectStart (initConnState Nat 1)).2

/-- Connection state after a full graceful lifecycle on a fresh instance:
`connect`, listener opens, `close()` requests the stop, listener exits with
`close_result = None`. -/
def closedIdleState : ConnState Nat :=
  listenerFinalize (ConnState.stop (listenerOpen connectingState)) none

/-! ### Helper lemmas -/

theorem putAll_buffer : ∀ (ms : List α) (s s₁ : ConnState α),
    putAll s ms = some s₁ → s₁.buffer = s.buffer ++ ms := by
  intro ms
  induction ms with
  | nil =>
      intro s s₁ h
      simp only [putAll] at h
      cases h
      simp
  | cons m rest ih =>
      intro s s₁ h
      simp only [putAll, queuePut] at h
      split at h
      · simp at h
      · simp only [Option.bind_some, Option.some_bind] at h
        have hb := ih _ _ h
        simp [hb]

theorem drainLoop_drains (l : List α) :
    ∀ s : ConnState α, s.buffer = l →
      drainLoop l.length s = (l, { s with buffer := [] }) := by
  induction l with
  | nil =>
      intro s hs
      simp only [List.length_nil, drainLoop]
      cases s
      simp at hs
      simp [hs]
  | cons m rest ih =>
      intro s hs
      have hget : queueGet s = some (m, { s with buffer := rest }) := by
        simp [queueGet, hs]
      have ihs := ih { s with buffer := rest } rfl
      simp [drainLoop, hget, ihs]

theorem lookup_filter_ne (tid : Nat) (l : List (Nat × Nat)) :
    (l.filter fun kv => kv.1 ≠ tid).lookup tid = none := by
  induction l with
  | nil => rfl
  | cons kv rest ih =>
      obtain ⟨k, v⟩ := kv
      rw [List.filter_cons]
      by_cases h : k = tid
      · rw [if_neg (by simp [h])]
        exact ih
      · rw [if_pos (by simp [h])]
        have hb : (tid == k) = false := by simp [Ne.symm h]
        simp only [List.lookup, hb]
        exact ih

theorem set_concat_get (l : List (Option DownMsg)) (v : Option DownMsg) :
    ((l ++ [none]).set l.length v)[l.length]? = some v := by
  induction l with
  | nil => rfl
  | cons a rest ih => simp [ih]

/-! ### Claims -/

/-- C1: for every sequence of `N` inbound frames that the listener decodes
and enqueues into the inbound buffer before the connection closes, fully
consuming `stream()` after closure yields exactly those `N` messages, in the
order the listener enqueued them, each exactly once; the close transition
(`listenerFinalize`) purges no buffered message. -/
theorem stream_no_loss (s s₁ : ConnState α) (ms : List α) (r : Option String)
    (hbuf : s.buffer = []) (hput : putAll s ms = some s₁) :
    (listenerFinalize s₁ r).buffer = s₁.buffer ∧
    (streamAfterClosed (listenerFinalize s₁ r)).1 = ms ∧
    (streamAfterClosed (listenerFinalize s₁ r)).2.buffer = [] := by
  have hb : s₁.buffer = ms := by
    have h := putAll_buffer ms s s₁ hput
    rw [hbuf] at h
    simpa using h
  have hfin : (listenerFinalize s₁ r).buffer = ms := by
    simp [listenerFinalize, hb]
  have hd := drainLoop_drains ms (listenerFinalize s₁ r) hfin
  refine ⟨by simp [listenerFinalize], ?_, ?_⟩
  · simp [streamAfterClosed, hfin, hd]
  · simp [streamAfterClosed, hfin, hd]

/-- Closed-form instance of `stream_no_loss`: three messages enqueued on a
fresh capacity-3 buffer are all yielded, in order, after a graceful close. -/
theorem stream_no_loss_witness :
    putAll (initConnState Nat 3) [10, 20, 30]
        = some ⟨false, false, none, false, [10, 20, 30], 3, 0⟩ ∧
    (streamAfterClosed
        (listenerFinalize (⟨false, false, none, false, [10, 20, 30], 3, 0⟩ : ConnState Nat) none)).1
      = [10, 20, 30] := by
  refine ⟨by rfl, ?_⟩
  exact (stream_no_loss (initConnState Nat 3) _ [10, 20, 30] none rfl (by rfl)).2.1

/-- C2: on an empty inbound buffer of an already-closed connection, `recv()`
without a timeout raises `ConnectionClosedOk` when the recorded close reason
is `None` and `ConnectionClosedAbnormally(reason)` when it is
`Some(reason)`; the two exceptions are distinct values of the error type. -/
theorem recv_blocking_distinguishes_close (s : ConnState α)
    (hbuf : s.buffer = []) :
    (s.closed = some none →
        recvQuiescent s none = some (.error .closedOk, s)) ∧
    (∀ reason, s.closed = some (some reason) →
        recvQuiescent s none = some (.error (.closedAbnormally reason), s)) ∧
    (∀ reason, ConnError.closedOk ≠ ConnError.closedAbnormally reason) := by
  obtain ⟨o, st, c, w, b, cap, li⟩ := s
  simp only at hbuf
  subst hbuf
  refine ⟨?_, ?_, ?_⟩
  · intro h
    simp only at h
    subst h
    rfl
  · intro reason h
    simp only at h
    subst h
    rfl
  · intro reason hne
    cases hne

/-- Closed-form instance of `recv_blocking_distinguishes_close` at a
gracefully closed and at an abnormally closed connection state. -/
theorem recv_blocking_distinguishes_close_witness :
    recvQuiescent (α := Nat) ⟨false, true, some none, false, [], 1, 1⟩ none
        = some (.error .closedOk, ⟨false, true, some none, false, [], 1, 1⟩) ∧
    recvQuiescent (α := Nat) ⟨false, true, some (some "boom"), false, [], 1, 1⟩ none
        = some (.error (.closedAbnormally "boom"),
                ⟨false, true, some (some "boom"), false, [], 1, 1⟩) := by
  refine ⟨?_, ?_⟩
  · exact (recv_blocking_distinguishes_close
      (⟨false, true, some none, false, [], 1, 1⟩ : ConnState Nat) rfl).1 rfl
  · exact (recv_blocking_distinguishes_close
      (⟨false, true, some (some "boom"), false, [], 1, 1⟩ : ConnState Nat) rfl).2.1 "boom" rfl

/-- C3 counterexample: `recv(timeout=1)` on the empty buffer of an
already-gracefully-closed connection (a state reached by `connect`, listener
open, `close()`, listener exit with reason `None`) raises
`ConnectionClosedOk` instead of returning the absent result the claim
promises for every connection state at expiry. -/
theorem recv_timeout_on_closed_raises :
    recvQuiescent closedIdleState (some 1)
      = some (.error .closedOk, closedIdleState) := rfl

/-- C3 amended: `recv(timeout=T)` on an empty buffer with no message arriving
within `T` returns the absent result without raising, provided the
connection has not closed by the time the timeout expires; on a closed
connection the final `_raise_on_closed(force_raise_if_closed=True)` line
raises instead. -/
theorem recv_timeout_returns_none_when_not_closed (s : ConnState α) (T : Nat)
    (hbuf : s.buffer = []) (hnc : s.closed = none) :
    recvQuiescent s (some T) = some (.ok none, s) := by
  obtain ⟨o, st, c, w, b, cap, li⟩ := s
  simp only at hbuf hnc
  subst hbuf
  subst hnc
  rfl

/-- Closed-form instance of `recv_timeout_returns_none_when_not_closed` on a
freshly opened connection. -/
theorem recv_timeout_returns_none_witness :
    recvQuiescent (listenerOpen connectingState) (some 5)
      = some (.ok none, listenerOpen connectingState) :=
  recv_timeout_returns_none_when_not_closed (listenerOpen connectingState) 5 rfl rfl

/-- C5 counterexample: with a first `connect()` still in its Connecting phase
(listener spawned, handshake pending — a state reached from a fresh instance
by the synchronous part of `connect()`), a second `connect()` does not fail:
its guard passes and it spawns a second listener task. -/
theorem connect_twice_connecting_not_rejected :
    (connectStart connectingState).1 = .ok () ∧
    (connectStart connectingState).2.listeners = 2 := by
  exact ⟨rfl, rfl⟩

/-- C5 amended: `connect()` fails with `UpstreamError`/`DownstreamError` and
leaves the state (transport, buffer, close reason, spawned listeners)
unchanged when the connection is already open or already closed — the guard
checks only `is_opened()` and `is_closed()`; a connection whose first
`connect()` is still mid-handshake passes the guard, so a concurrent second
`connect()` there is not rejected and spawns a second listener. -/
theorem connect_rejected_when_open_or_closed (s : ConnState α)
    (h : s.opened = true ∨ s.closed.isSome = true) (hs : HandshakeOutcome) :
    connect s hs = (.error .alreadyEstablishedOrClosed, s) := by
  have hg : (s.is_opened || s.is_closed) = true := by
    rcases h with h | h <;>
      simp [ConnState.is_opened, ConnState.is_closed, h]
  unfold connect connectStart
  rw [if_pos hg]

/-- Closed-form instance of `connect_rejected_when_open_or_closed` on an
already-closed connection. -/
theorem connect_rejected_witness :
    connect closedIdleState .success
      = (.error .alreadyEstablishedOrClosed, closedIdleState) :=
  connect_rejected_when_open_or_closed closedIdleState (Or.inr rfl) .success

/-- C10: once the `_closed` future is resolved, `wait_closed()` returns
immediately and normally for any close reason, graceful or abnormal; the
abnormal reason is surfaced as `ConnectionClosedAbnormally` only through
`_raise_on_closed`, the path shared by `recv` and `connect`. -/
theorem wait_closed_normal_on_closed (s : ConnState α) (r : Option String)
    (h : s.closed = some r) :
    waitClosed s = some (.ok ()) ∧
    (∀ reason, r = some reason →
        raiseOnClosed s true = .error (.closedAbnormally reason) ∧
        raiseOnClosed s false = .error (.closedAbnormally reason)) := by
  constructor
  · simp [waitClosed, ConnState.is_closed, h]
  · intro reason hr
    subst hr
    constructor <;> simp [raiseOnClosed, h]

/-- Closed-form instance of `wait_closed_normal_on_closed` on an abnormally
closed connection. -/
theorem wait_closed_normal_witness :
    waitClosed (α := Nat) ⟨false, true, some (some "boom"), false, [], 1, 1⟩
        = some (.ok ()) ∧
    raiseOnClosed (α := Nat) ⟨false, true, some (some "boom"), false, [], 1, 1⟩ true
        = .error (.closedAbnormally "boom") := by
  have h := wait_closed_normal_on_closed
    (⟨false, true, some (some "boom"), false, [], 1, 1⟩ : ConnState Nat)
    (some "boom") rfl
  exact ⟨h.1, (h.2 "boom" rfl).1⟩

/-- C4: when the handshake fails with HTTP 401, `connect()` on a fresh
connection surfaces the unauthorized failure — the listener records the fixed
unauthorized close reason, `connect` re-raises it as
`ConnectionClosedAbnormally` with exactly that reason, the state ends closed
with `_opened` and `_ws` cleared, and the failure is distinguishable both
from a graceful close and from every non-401 handshake failure. -/
theorem connect_unauthorized_handshake (s : ConnState α) (m : String)
    (hop : s.opened = false) (hcl : s.closed = none) :
    (connect s (.handshakeError 401 m)).1
        = .error (.closedAbnormally unauthorizedReason) ∧
    (connect s (.handshakeError 401 m)).2.closed
        = some (some unauthorizedReason) ∧
    (connect s (.handshakeError 401 m)).2.opened = false ∧
    (connect s (.handshakeError 401 m)).2.ws = false ∧
    ConnError.closedAbnormally unauthorizedReason ≠ ConnError.closedOk ∧
    (∀ st msg, st ≠ 401 → handshakeCloseReason st msg ≠ unauthorizedReason) := by
  obtain ⟨o, st, c, w, b, cap, li⟩ := s
  simp only at hop hcl
  subst hop
  subst hcl
  refine ⟨rfl, rfl, rfl, rfl, by simp, ?_⟩
  intro st msg hst h
  rw [handshakeCloseReason, if_neg hst] at h
  have h2 := congrArg String.data h
  rw [String.data_append] at h2
  have h3 := congrArg List.head? h2
  simp [unauthorizedReason] at h3

/-- Closed-form instance of `connect_unauthorized_handshake` on a fresh
connection whose handshake reports HTTP 401. -/
theorem connect_unauthorized_witness :
    (connect (initConnState Nat 1) (.handshakeError 401 "Invalid response status")).1
        = .error (.closedAbnormally unauthorizedReason) ∧
    (connect (initConnState Nat 1) (.handshakeError 401 "Invalid response status")).2.closed
        = some (some unauthorizedReason) := by
  have h := connect_unauthorized_handshake (initConnState Nat 1)
    "Invalid response status" rfl rfl
  exact ⟨h.1, h.2.1⟩

/-- C6: the close reason is written exactly once, by the listener's
`finally:` block when it terminates — from an unresolved `_closed` future,
`listenerFinalize` records the given reason; once resolved, no further
transition (stop, connect, open, put, get, or a second finalize, whose
`set_result` raises `InvalidStateError`) changes the stored value; and every
observer — `recv`/`connect` via `_raise_on_closed` and `wait_closed` — sees
that single recorded value. -/
theorem close_reason_write_once (s : ConnState α) :
    (∀ r : Option String, s.closed = none →
        (listenerFinalize s r).closed = some r) ∧
    (∀ e : Event α, (∀ r : Option String, e ≠ .finalize r) →
        (stepEvent s e).closed = s.closed) ∧
    (∀ r₀ : Option String, s.closed = some r₀ →
        ∀ e : Event α, (stepEvent s e).closed = some r₀) ∧
    (∀ reason : String, s.closed = some (some reason) →
        raiseOnClosed s true = .error (.closedAbnormally reason) ∧
        raiseOnClosed s false = .error (.closedAbnormally reason) ∧
        waitClosed s = some (.ok ())) := by
  refine ⟨?_, ?_, ?_, ?_⟩
  · intro r h
    simp [listenerFinalize, futureSetResult, h]
  · intro e hne
    cases e with
    | stop => rfl
    | connectBegin =>
        simp only [stepEvent, connectStart]
        split <;> rfl
    | open0 => rfl
    | putMessage m =>
        simp only [stepEvent, queuePut]
        split <;> rfl
    | getMessage =>
        obtain ⟨o, st, c, w, b, cap, li⟩ := s
        cases b <;> rfl
    | finalize r => exact absurd rfl (hne r)
  · intro r₀ h e
    cases e with
    | stop => simpa [stepEvent, ConnState.stop] using h
    | connectBegin =>
        simp only [stepEvent, connectStart]
        split <;> simpa using h
    | open0 => simpa [stepEvent, listenerOpen] using h
    | putMessage m =>
        simp only [stepEvent, queuePut]
        split <;> simp [h]
    | getMessage =>
        obtain ⟨o, st, c, w, b, cap, li⟩ := s
        simp only at h
        subst h
        cases b <;> rfl
    | finalize r => simp [stepEvent, listenerFinalize, futureSetResult, h]
  · intro reason h
    exact ⟨by simp [raiseOnClosed, h], by simp [raiseOnClosed, h],
           by simp [waitClosed, ConnState.is_closed, h]⟩

/-- Closed-form instance of `close_reason_write_once`: the listener records
a reason on an unresolved future, and a second finalize on a resolved future
cannot overwrite it. -/
theorem close_reason_write_once_witness :
    (listenerFinalize (α := Nat) ⟨false, true, none, true, [], 1, 1⟩
        (some "boom")).closed = some (some "boom") ∧
    (stepEvent (α := Nat) ⟨false, true, some (some "boom"), false, [], 1, 1⟩
        (.finalize none)).closed = some (some "boom") := by
  refine ⟨?_, ?_⟩
  · exact (close_reason_write_once
      (⟨false, true, none, true, [], 1, 1⟩ : ConnState Nat)).1 (some "boom") rfl
  · exact (close_reason_write_once
      (⟨false, true, some (some "boom"), false, [], 1, 1⟩ : ConnState Nat)).2.2.1
      (some "boom") rfl (.finalize none)

/-- C7: `DownstreamAckOrResultSerializer.parse` classifies a decoded reply
frame by field presence — a snake-cased key set containing `result_code`
parses as the Result variant, any other parses as the Ack variant, and the
classification always lands in one of these two variants. -/
theorem ack_or_result_classification (V : Type) (d : List (String × V)) :
    (((castKeysToSnakeCase d).map Prod.fst).contains "result_code" = true →
        downstreamAckOrResultParse d
          = .resultMessage (castKeysToSnakeCase d)) ∧
    (((castKeysToSnakeCase d).map Prod.fst).contains "result_code" = false →
        downstreamAckOrResultParse d
          = .ackMessage (castKeysToSnakeCase d)) ∧
    (downstreamAckOrResultParse d = .resultMessage (castKeysToSnakeCase d) ∨
     downstreamAckOrResultParse d = .ackMessage (castKeysToSnakeCase d)) := by
  have hcases : downstreamAckOrResultParse d =
      (if ((castKeysToSnakeCase d).map Prod.fst).contains "result_code" then
        DownstreamAckOrResult.resultMessage (castKeysToSnakeCase d)
      else
        DownstreamAckOrResult.ackMessage (castKeysToSnakeCase d)) := rfl
  refine ⟨?_, ?_, ?_⟩
  · intro h
    rw [hcases, if_pos h]
  · intro h
    rw [hcases, if_neg (by rw [h]; exact Bool.false_ne_true)]
  · by_cases h : ((castKeysToSnakeCase d).map Prod.fst).contains "result_code" = true
    · exact Or.inl (by rw [hcases, if_pos h])
    · exact Or.inr (by rw [hcases, if_neg h])

/-- Closed-form instance of `ack_or_result_classification`: the wire key
`ResultCode` snake-cases to `result_code` and selects the Result variant;
a frame without it selects the Ack variant. -/
theorem ack_or_result_classification_witness :
    downstreamAckOrResultParse (V := Nat) [("ResultCode", 0), ("TransactionID", 1)]
        = .resultMessage [("result_code", 0), ("transaction_id", 1)] ∧
    downstreamAckOrResultParse (V := Nat) [("TransactionID", 1), ("MailboxID", 2)]
        = .ackMessage [("transaction_id", 1), ("mailbox_id", 2)] := by
  refine ⟨?_, ?_⟩
  · have h := (ack_or_result_classification Nat
      [("ResultCode", 0), ("TransactionID", 1)]).1 (by decide)
    rw [h]
    decide
  · have h := (ack_or_result_classification Nat
      [("TransactionID", 1), ("MailboxID", 2)]).2.1 (by decide)
    rw [h]
    decide

/-- C8: registering an ack waiter for transaction id `tid` and then
dispatching an inbound ack carrying `tid` resolves exactly that waiter with
exactly that message and removes the `(tid, ack)` registration; dispatching
an ack whose transaction id has no registered waiter changes nothing and
raises no error. -/
theorem ack_correlation (s : DownstreamSync) (tid : Nat) :
    ((ackResultDispatch (createDownstreamAckFuture s tid).2
        (.ackMessage tid)).futures[(createDownstreamAckFuture s tid).1]?
      = some (some (.ackMessage tid))) ∧
    ((ackResultDispatch (createDownstreamAckFuture s tid).2
        (.ackMessage tid)).acks.lookup tid = none) ∧
    (∀ s' : DownstreamSync, s'.acks.lookup tid = none →
        ackResultDispatch s' (.ackMessage tid) = s') := by
  have hreg : List.lookup tid ((tid, s.futures.length) ::
      s.acks.filter fun kv => kv.1 ≠ tid) = some s.futures.length := by
    simp [List.lookup]
  refine ⟨?_, ?_, ?_⟩
  · simp only [ackResultDispatch, createDownstreamAckFuture, hreg]
    exact set_concat_get s.futures (some (.ackMessage tid))
  · simp only [ackResultDispatch, createDownstreamAckFuture, hreg]
    exact lookup_filter_ne tid _
  · intro s' h
    simp [ackResultDispatch, h]

/-- Closed-form instance of `ack_correlation` on an empty tracker:
register-then-dispatch for id 7 resolves the waiter and clears the entry;
dispatching an ack for the unregistered id 9 is a no-op. -/
theorem ack_correlation_witness :
    ((ackResultDispatch (createDownstreamAckFuture ⟨[], [], []⟩ 7).2
        (.ackMessage 7)).futures[(createDownstreamAckFuture
          (⟨[], [], []⟩ : DownstreamSync) 7).1]?
      = some (some (.ackMessage 7))) ∧
    ackResultDispatch ⟨[], [], []⟩ (.ackMessage 9)
      = (⟨[], [], []⟩ : DownstreamSync) := by
  refine ⟨?_, ?_⟩
  · exact (ack_correlation ⟨[], [], []⟩ 7).1
  · exact (ack_correlation ⟨[], [], []⟩ 9).2.2 ⟨[], [], []⟩ rfl

/-- C9: `create_connection(buffer_size)` builds a connection bound to the
manager's stored access token, session and API path and drives `connect()`
on it before returning, so the caller receives an already-open connection on
handshake success and sees `connect`'s exception on handshake failure; the
manager's `__call__` returns the same freshly-initialised connection object
with `connect` never invoked and no state touched. -/
theorem connection_manager_create (α : Type) (m : ConnectionManager) (b : Nat) :
    createConnection α m b .success
        = .ok ⟨m.accessToken, m.session, m.apiPath,
               listenerOpen { initConnState α b with listeners := 1 }⟩ ∧
    (∀ st msg, createConnection α m b (.handshakeError st msg)
        = .error (.closedAbnormally (handshakeCloseReason st msg))) ∧
    (∀ msg, createConnection α m b (.clientConnectionError msg)
        = .error (.closedAbnormally ("Connection closed due to " ++ msg))) ∧
    managerCall α m b
        = ⟨m.accessToken, m.session, m.apiPath, initConnState α b⟩ := by
  exact ⟨rfl, fun st msg => rfl, fun msg => rfl, rfl⟩

end RanRouting
